import Mathlib

/-!
# Verification of the c19-tracking credential / record-integrity pipeline

Shallow embedding of the Go sources of `bryk-io/c19-tracking`:

* `proto/v1/utils.go` — `LocationRecord.GenerateHash`
* `utils/main.go` — `VerifySignature`, `ResolveDID`
* `api/utils.go` — `validateRecord`, `isRoleValid`
* `api/auth.go` — `Server.RenewToken`, `Server.LocationRecord`,
  `Server.getRefreshCode`, `Server.getToken`, `Server.AccessToken`
* `api` (remote interface) — `ActivationCode`, `Credentials`
* `storage/handler.go` — `Handler.VerifyActivationCode`, `Handler.ActivationCode`,
  `Handler.LocationRecords`
* `api` (worker) — `Worker.handleTasks`, `Worker.locationRecord`, `Worker.publishDID`

Modelling conventions:
* Go `float32` coordinate fields are modelled as rationals (`ℚ`); the Go
  `fmt.Sprintf("%f", ·)` rendering is modelled as decimal rendering with six
  fractional digits, rounding to nearest.
* Go `int64` timestamps are modelled as `ℤ`; `fmt.Sprintf("%d", ·)` is `toString`.
* External cryptographic collaborators (crypto/sha256, sha3, blake2b, base64,
  ed25519 keys) are modelled at their interface boundary as deterministic,
  collision-free functions; the repository-level byte/string construction that
  feeds them is embedded faithfully.
* The ambient clock (`time.Now()`) is passed as an explicit `now : ℤ` parameter.
* Network state (the task queue) and storage state are passed explicitly.
-/

namespace CT19

/-! ## Decimal rendering of numeric fields (Go `fmt.Sprintf` model) -/

/-- Left-pad a digit string with zeros to six characters (used for the
fractional part of the `%f` rendering). -/
def pad6 (s : String) : String :=
  String.mk (List.replicate (6 - s.length) '0') ++ s

/-- The magnitude of a coordinate value scaled by 10⁶ and rounded to the
nearest integer: for `q = n / d` this is `⌊(10⁶·|n|·2 + d) / (2·d)⌋`. -/
def scaled6 (q : ℚ) : ℕ :=
  (2000000 * q.num.natAbs + q.den) / (2 * q.den)

/-- Model of Go `fmt.Sprintf("%f", x)` for a coordinate value: sign of the
value, integer part, and exactly six fractional digits, rounding the magnitude
to the nearest multiple of 10⁻⁶. -/
def fmt6 (q : ℚ) : String :=
  let m : ℕ := scaled6 q
  (if q < 0 then "-" else "") ++ toString (m / 1000000) ++ "." ++ pad6 (toString (m % 1000000))

/-- Little-endian base-10 digit list of `n`, with explicit fuel (any
`fuel ≥ n` yields the digits of `n`). -/
def natDigitsRev (fuel n : ℕ) : List ℕ :=
  match fuel with
  | 0 => []
  | fuel + 1 => if n = 0 then [] else n % 10 :: natDigitsRev fuel (n / 10)

/-- Decimal rendering of a natural number (most significant digit first). -/
def natRepr (n : ℕ) : String :=
  if n = 0 then "0" else ⟨((natDigitsRev n n).map Nat.digitChar).reverse⟩

/-- Model of Go `fmt.Sprintf("%d", t)` for an `int64` timestamp: standard
decimal notation with a leading minus sign for negative values. -/
def fmtD (t : ℤ) : String :=
  if t < 0 then "-" ++ natRepr t.natAbs else natRepr t.natAbs

/-- The value denoted by a little-endian base-10 digit list. -/
def ofDigitsRev : List ℕ → ℕ
  | [] => 0
  | d :: ds => d + 10 * ofDigitsRev ds

/-! ## External digest collaborators -/

/-- Modelled from the spec: `crypto/sha256` (hex encoded) is an external
standard-library collaborator, "a fixed cryptographic digest"; it is modelled
as an injective encoding of its input, i.e. an idealised collision-free
digest. The repository-level construction of the digest *input* is embedded
faithfully below. -/
def sha256hex (s : String) : String := s

/-- Modelled from the spec: `sha3.Sum256` as used by `VerifySignature`
("hashes the payload with a single round of a fixed cryptographic digest");
modelled as an injective encoding, i.e. an idealised collision-free digest. -/
def sha3hex (s : String) : String := s

/-! ## Identities and linked-data signatures (`go.bryk.io/x/ccg/did` boundary) -/

/-- Linked-data signature envelope (`did.SignatureLD`): names the signing key
(`creator`), creation time, domain, nonce and the signature value. -/
structure SignatureLD where
  creator : String
  created : String
  domain : String
  nonce : String
  signatureValue : String
deriving DecidableEq, Repr

/-- A public key declared in a resolved DID document. The external
`VerifySignatureLD` primitive is modelled as a key-supplied verification
predicate over (hashed payload, signature envelope). -/
structure PubKey where
  verify : String → SignatureLD → Bool

/-- A resolved decentralized identifier: the DID string plus the document's
named public keys (`id.DID()` and `id.Key(name)` in the source). -/
structure Identifier where
  did : String
  keys : List (String × PubKey)

/-- `id.Key(name)`: look up a declared key by its identifier. -/
def Identifier.key (id : Identifier) (name : String) : Option PubKey :=
  id.keys.lookup name

/-- Embedding of `utils.VerifySignature` (`utils/main.go`): decode the
signature document (a proof that fails to decode is `none`), look up the
creator key (failing if absent), hash the signed data and verify the
signature with the identity's declared key. Returns `true` exactly when the
Go function returns a nil error. -/
def VerifySignature (id : Identifier) (data : String) (proof : Option SignatureLD) : Bool :=
  match proof with
  | none => false
  | some s =>
    match id.key s.creator with
    | none => false
    | some k => k.verify (sha3hex data) s

/-! ## Location records (`proto/v1`) -/

/-- `protov1.LocationRecord`: DID, coordinates, altitude, Unix timestamp,
content hash and the serialized signature proof (a proof that does not decode
as a `SignatureLD` document is `none`). -/
structure LocationRecord where
  did : String
  lat : ℚ
  lng : ℚ
  alt : ℚ
  timestamp : ℤ
  hash : String
  proof : Option SignatureLD
deriving DecidableEq, Repr

/-- The digest input built by `LocationRecord.GenerateHash`
(`proto/v1/utils.go`): the five rendered segments joined with `"|"`. -/
def LocationRecord.hashInput (r : LocationRecord) : String :=
  String.intercalate "|" [r.did, fmt6 r.lat, fmt6 r.lng, fmt6 r.alt, fmtD r.timestamp]

/-- Embedding of `LocationRecord.GenerateHash` (`proto/v1/utils.go`):
`SHA256(did|lat|lng|alt|timestamp)` in hex, with coordinates rendered via
`%f` and the timestamp via `%d`. -/
def LocationRecord.GenerateHash (r : LocationRecord) : String :=
  sha256hex r.hashInput

/-! ## Record validation (`api/utils.go`) -/

/-- Embedding of `validateRecord` (`api/utils.go`). The ambient
`time.Now().Unix()` is the explicit parameter `now`. -/
def validateRecord (id : Identifier) (now : ℤ) (r : LocationRecord) : Bool :=
  -- Verify DID is correct on the record entry
  if r.did ≠ id.did then false
  -- Lat and Lng are required
  else if r.lat = 0 ∨ r.lng = 0 then false
  -- Invalid timestamp value
  else if r.timestamp = 0 ∨ r.timestamp > now then false
  -- Invalid hash value
  else if r.GenerateHash ≠ r.hash then false
  -- Validate record's signature
  else VerifySignature id r.hash r.proof

/-! ## Errors and credential data (`api/auth.go`) -/

/-- The server's error taxonomy (`api/auth.go` common error codes, plus the
wrapped resolve / signature failures surfaced by `AccessToken`). -/
inductive Err where
  | unauthorized
  | unauthenticated
  | invalidRequest
  | internalError
  | failedToPublish
  | resolveFailed
  | invalidSignature
deriving DecidableEq, Repr

/-- A parsed bearer token: the custom claims (`credentialsData`: DID and role)
plus its serialized string form (`token.String()`). -/
structure Token where
  did : String
  role : String
  str : String
deriving DecidableEq, Repr

/-- `protov1.CredentialsResponse`: access token plus refresh code. -/
structure CredentialsResponse where
  accessToken : String
  refreshCode : String
deriving DecidableEq, Repr

/-- Immutable server configuration established at startup: server name
(issuer/audience), the hash key `hk` derived from the root key material, the
DID resolver environment (external resolver collaborator, modelled as an
association list), and whether the broker publish collaborator succeeds. -/
structure ServerCfg where
  name : String
  hk : String
  resolver : List (String × Identifier)
  pubOk : Bool

/-- Modelled from the spec: the keyed hash + encoding used for refresh codes
("a keyed cryptographic hash of the token's serialized form, keyed by a
secret derived from the server's root key material").  `blake2b.New256(key)`
followed by base64 raw-URL encoding are external crypto collaborators,
modelled as an injective keyed encoding (length-prefixed pairing). -/
def refreshMac (key seed : String) : String :=
  toString key.length ++ ":" ++ key ++ seed

/-- Embedding of `Server.getRefreshCode` (`api/auth.go`): the authenticated
hash of the serialized credential under the server's hash key.  The Go
error branch (key longer than 64 bytes) is unreachable for the 32-byte
`hk` and is not modelled. -/
def Server.getRefreshCode (srv : ServerCfg) (seed : String) : String :=
  refreshMac srv.hk seed

/-- Modelled from the spec: `jwx` token signing (external collaborator).  The
signed token serialization is modelled as an injective encoding of the claims
the source puts in `TokenParameters`: issuer and audience (the server name),
subject/DID and role.  The random unique id (`jti`) is not modelled. -/
def signToken (srv : ServerCfg) (id role : String) : String :=
  String.intercalate "." ["jwt", srv.name, srv.name, id, role]

/-- Embedding of `Server.getToken` (`api/auth.go`): build and sign the claims,
return the token string together with its refresh code. -/
def Server.getToken (srv : ServerCfg) (id role : String) : CredentialsResponse :=
  let t := signToken srv id role
  { accessToken := t, refreshCode := Server.getRefreshCode srv t }

/-- Embedding of `Server.RenewToken` (`api/auth.go`): recompute the refresh
code from the presented token string and require exact equality with the
supplied code; on match re-issue a credential from the token's claims. -/
def Server.RenewToken (srv : ServerCfg) (token : Token) (refreshCode : String) :
    Except Err CredentialsResponse :=
  -- Validate refresh code
  let cc := Server.getRefreshCode srv token.str
  if cc = "" ∨ cc ≠ refreshCode then .error .invalidRequest
  -- Create new token using claims present in the expired version.
  else .ok (Server.getToken srv token.did token.role)

/-! ## Record ingest (`Server.LocationRecord`, `api/auth.go`) -/

/-- `protov1.RecordRequest`: an ordered batch of location records. -/
structure RecordRequest where
  records : List LocationRecord
deriving DecidableEq, Repr

/-- `protov1.RecordResponse`. -/
structure RecordResponse where
  ok : Bool
deriving DecidableEq, Repr

/-- A DID document as carried in a `new_did` task body (external `did`
library type, modelled at the interface boundary: its subject plus whether
`did.FromDocument` accepts it). -/
structure DIDDocument where
  subject : String
  wellFormed : Bool
deriving DecidableEq, Repr

/-- The decoded payload of a task message: a protobuf `RecordRequest`, a JSON
DID document, or bytes that fail to decode as the expected type. -/
inductive Body where
  | record (req : RecordRequest)
  | didDoc (doc : DIDDocument)
  | malformed
deriving DecidableEq, Repr

/-- A task-queue message (`amqp.Message` / `amqp.Delivery`): type tag, message
id, optional `did` header, and the (decoded) body. -/
structure Delivery where
  type : String
  msgId : String
  headersDid : Option String
  body : Body
deriving DecidableEq, Repr

/-- Embedding of `Server.LocationRecord` (`api/auth.go`): reject batches of
more than 100 records, extract the DID from the credential claims, and
publish the batch as a persistent `ct19.location_record` task message.  The
task queue is the explicit `q`; the fresh `uuid.New()` message id is the
explicit `uuid` parameter; a failing publish collaborator is `srv.pubOk =
false`. -/
def Server.LocationRecord (srv : ServerCfg) (uuid : String) (token : Token)
    (req : RecordRequest) (q : List Delivery) :
    Except Err RecordResponse × List Delivery :=
  -- Maximum of 100 records per-request
  if req.records.length > 100 then (.error .invalidRequest, q)
  else
    -- Publish message (the DID header comes from the credential's claims)
    let msg : Delivery :=
      { type := "ct19.location_record", msgId := uuid
        headersDid := some token.did, body := .record req }
    if srv.pubOk then (.ok { ok := true }, q ++ [msg])
    else (.error .failedToPublish, q)

/-! ## Storage handler (`storage/handler.go`) -/

/-- One stored activation-code entry: the collection it lives in
(`<role>_codes`), the DID, the code and the creation time (TTL expiry is the
storage collaborator's job and is outside the embedding). -/
structure CodeRow where
  coll : String
  did : String
  code : String
  created : ℤ
deriving DecidableEq, Repr

/-- The activation-code portion of the persistent store. -/
structure StoreState where
  rows : List CodeRow
deriving DecidableEq, Repr

/-- `protov1.ActivationCodeRequest`. -/
structure ActivationCodeRequest where
  did : String
  role : String
deriving DecidableEq, Repr

/-- `protov1.CredentialsRequest`. -/
structure CredentialsRequest where
  did : String
  role : String
  activationCode : String
  proof : Option SignatureLD
deriving DecidableEq, Repr

/-- The Mongo query used by `Handler.VerifyActivationCode`: an exact match of
`did` and `code` within the `<role>_codes` collection. -/
def codeQueryMatches (coll did code : String) (row : CodeRow) : Bool :=
  row.coll == coll && row.did == did && row.code == code

/-- Embedding of `Handler.ActivationCode` (`storage/handler.go`): insert a
fresh code record (the `uuid.New()` value is the explicit `uuid` parameter)
into the `<role>_codes` collection and return it. -/
def Handler.ActivationCode (st : StoreState) (uuid : String) (now : ℤ)
    (req : ActivationCodeRequest) : String × StoreState :=
  (uuid, ⟨st.rows ++ [⟨req.role ++ "_codes", req.did, uuid, now⟩]⟩)

/-- Embedding of `Handler.VerifyActivationCode` (`storage/handler.go`): find
one entry matching (did, code) in the `<role>_codes` collection; when found,
delete every matching entry and report success. -/
def Handler.VerifyActivationCode (st : StoreState) (req : CredentialsRequest) :
    Bool × StoreState :=
  let coll := req.role ++ "_codes"
  let valid := st.rows.any (codeQueryMatches coll req.did req.activationCode)
  if valid then
    (true, ⟨st.rows.filter fun row => !(codeQueryMatches coll req.did req.activationCode row)⟩)
  else (false, st)

/-- Embedding of `Handler.LocationRecords` (`storage/handler.go`): a single
bulk `InsertMany` of the given records.  It fails when the backing store
fails (`storeOk = false`) or — per the Mongo driver's contract — when the
slice of documents is empty. -/
def Handler.LocationRecords (storeOk : Bool) (stored : List LocationRecord)
    (records : List LocationRecord) : Except String (List LocationRecord) :=
  if !storeOk then .error "insert failed"
  else if records.isEmpty then .error "empty slice"
  else .ok (stored ++ records)

/-! ## Remote interface (roles, authentication, authorization) -/

/-- `supportedRoles` (`api/auth.go`). -/
def supportedRoles : List String := ["user", "agent", "admin"]

/-- Embedding of `isRoleValid` (`api/utils.go`): linear scan over the
supported role literals. -/
def isRoleValid (role : String) : Bool :=
  supportedRoles.any fun r => role == r

/-- Modelled from the spec: `did.Parse` (external `did` library syntax check
on the identifier string), modelled as requiring the `did:` scheme. -/
def didParses (s : String) : Bool :=
  decide (s.data.take 4 = "did:".data)

/-- Embedding of `Server.authenticate` at the interface boundary: the request
context either carries a bearer token that passed the issuer / audience /
not-before / issued-at signature checks (`some token`) or it does not.
Claim-relevant behaviour only needs the success/failure split. -/
def Server.authenticate (ctx : Option Token) : Except Err Token :=
  match ctx with
  | none => .error .unauthenticated
  | some t => .ok t

/-- The RBAC rule table from `utils.AccessPolicy()` (`utils/main.go`):
(subject, resource pattern, action pattern). -/
def accessRules : List (String × String × String) :=
  [ ("user", "/credentials", "renew"),
    ("user", "/record", "create"),
    ("agent", "/credentials", "renew"),
    ("agent", "/record", "create"),
    ("agent", "/notification", "create"),
    ("admin", ".*", ".*") ]

/-- Modelled from the spec: the external enforcer's regex matching.  The
shipped policy only uses literal patterns and the universal pattern `.*`,
so matching is: the universal pattern accepts anything, a literal pattern
accepts exactly itself. -/
def patternMatches (pat s : String) : Bool :=
  pat == ".*" || pat == s

/-- Embedding of `Server.authorize` (`api/auth.go`): evaluate the caller's
role against the rule table, default-deny. -/
def Server.authorize (token : Token) (resource action : String) : Bool :=
  accessRules.any fun rule =>
    rule.1 == token.role && patternMatches rule.2.1 resource && patternMatches rule.2.2 action

/-- Embedding of `Server.ActivationCode` (`api/auth.go`): parse the DID, then
create the code via the storage handler. -/
def Server.ActivationCode (_srv : ServerCfg) (uuid : String) (now : ℤ)
    (req : ActivationCodeRequest) (st : StoreState) : Except Err String × StoreState :=
  if !didParses req.did then (.error .invalidRequest, st)
  else
    let (code, st') := Handler.ActivationCode st uuid now req
    (.ok code, st')

/-- Embedding of `Server.AccessToken` (`api/auth.go`): resolve the identity,
verify the registration proof over the activation code, optionally consume
the activation code, then issue credentials. -/
def Server.AccessToken (srv : ServerCfg) (req : CredentialsRequest)
    (validateCode : Bool) (st : StoreState) :
    Except Err CredentialsResponse × StoreState :=
  -- Retrieve DID instance
  match srv.resolver.lookup req.did with
  | none => (.error .resolveFailed, st)
  | some id =>
    -- Verify registration proof
    if !(VerifySignature id req.activationCode req.proof) then (.error .invalidSignature, st)
    -- Validate activation code
    else if validateCode then
      match Handler.VerifyActivationCode st req with
      | (true, st') => (.ok (Server.getToken srv req.did req.role), st')
      | (false, st') => (.error .invalidRequest, st')
    else (.ok (Server.getToken srv req.did req.role), st)

/-- Embedding of `remoteInterface.ActivationCode`: reject unsupported roles
and `admin` outright; require authentication and authorization for `agent`
codes; then generate the code. -/
def remoteActivationCode (srv : ServerCfg) (ctx : Option Token) (uuid : String)
    (now : ℤ) (req : ActivationCodeRequest) (st : StoreState) :
    Except Err String × StoreState :=
  -- For security, admin codes can't be generated via the API
  if !isRoleValid req.role ∨ req.role = "admin" then (.error .invalidRequest, st)
  -- Activation codes for "agent" role require authentication and authorization
  else if req.role = "agent" then
    match Server.authenticate ctx with
    | .error e => (.error e, st)
    | .ok token =>
      if !(Server.authorize token "/activation_code/agent" "create") then
        (.error .unauthorized, st)
      else Server.ActivationCode srv uuid now req st
  else Server.ActivationCode srv uuid now req st

/-- Embedding of `remoteInterface.Credentials`: reject unsupported roles and
`admin` outright; otherwise process the credentials request with activation
code validation enabled. -/
def remoteCredentials (srv : ServerCfg) (req : CredentialsRequest) (st : StoreState) :
    Except Err CredentialsResponse × StoreState :=
  -- For security, admin credentials can't be generated via the API
  if !isRoleValid req.role ∨ req.role = "admin" then (.error .invalidRequest, st)
  else Server.AccessToken srv req true st

/-! ## Asynchronous worker -/

/-- Worker environment: the DID resolver collaborator, the ambient clock and
whether the persistence collaborator succeeds. -/
structure WorkerEnv where
  resolver : List (String × Identifier)
  now : ℤ
  storeOk : Bool

/-- Observable worker state: the persisted records, the acknowledged message
ids, the log lines, and the initiated directory-publish attempts
(identifier-or-none together with the proof-of-work difficulty). -/
structure WorkerState where
  stored : List LocationRecord
  acked : List String
  logs : List String
  published : List (Option String × ℕ)
deriving DecidableEq, Repr

/-- The `defer msg.Ack(false)` of the worker handlers: acknowledge the
message on every return path. -/
def withAck (msgId : String) (st : WorkerState) : WorkerState :=
  { st with acked := st.acked ++ [msgId] }

/-- Append a log line (the worker only ever logs; nothing propagates). -/
def wlog (line : String) (st : WorkerState) : WorkerState :=
  { st with logs := st.logs ++ [line] }

/-- Embedding of `Worker.locationRecord`: acknowledge unconditionally
(deferred); require the `did` header, decode the batch, resolve the
submitter, keep exactly the records accepted by `validateRecord`, and
persist them in a single bulk insert, logging (only) on failure. -/
def Worker.locationRecord (env : WorkerEnv) (msg : Delivery) (st : WorkerState) :
    WorkerState :=
  withAck msg.msgId <|
    -- Get author DID
    match msg.headersDid with
    | none => wlog "record without DID" st
    | some userDID =>
      -- Decode message contents
      match msg.body with
      | .record req =>
        -- Resolve DID document for the credential's subject
        match env.resolver.lookup userDID with
        | none => wlog "invalid DID" st
        | some id =>
          -- Validate records
          let records := req.records.filter (validateRecord id env.now)
          -- Store valid records and return final result
          match Handler.LocationRecords env.storeOk st.stored records with
          | .error _ => wlog "failed to save record" st
          | .ok stored' => { wlog "location record processed" st with stored := stored' }
      | _ => wlog "invalid record contents" st

/-- Modelled from the spec: `did.FromDocument` (external `did` library),
converting a decoded document into an identifier; fails on ill-formed
documents. -/
def fromDocument (doc : DIDDocument) : Option String :=
  if doc.wellFormed then some doc.subject else none

/-- The zero-value `did.Document{}` the worker starts from before decoding. -/
def emptyDocument : DIDDocument := { subject := "", wellFormed := false }

/-- Embedding of `Worker.publishDID`: acknowledge unconditionally (deferred);
decode the DID document and convert it to an identifier, logging a warning on
each failure but never returning early; finally launch the directory-publish
attempt (difficulty 18) with whatever identifier resulted. -/
def Worker.publishDID (msg : Delivery) (st : WorkerState) : WorkerState :=
  withAck msg.msgId <|
    -- Decode DID document
    let step1 : DIDDocument × WorkerState :=
      match msg.body with
      | .didDoc d => (d, st)
      | _ => (emptyDocument, wlog "invalid message contents" st)
    let step2 : Option String × WorkerState :=
      match fromDocument step1.1 with
      | some i => (some i, step1.2)
      | none => (none, wlog "invalid message contents" step1.2)
    -- Submit publish request
    { step2.2 with published := step2.2.published ++ [(step2.1, 18)] }

/-- Embedding of the dispatch in `Worker.handleTasks` for a single delivered
message: route by message type; any other kind only logs a warning. -/
def Worker.handleTask (env : WorkerEnv) (msg : Delivery) (st : WorkerState) :
    WorkerState :=
  if msg.type = "ct19.location_record" then Worker.locationRecord env msg st
  else if msg.type = "ct19.new_did" then Worker.publishDID msg st
  else wlog "invalid message type" st

/-- The warnings `Worker.publishDID` emits while decoding a body: a bad
payload fails both the JSON decode and the document conversion; a well-formed
document fails neither; an ill-formed document fails only the conversion. -/
def decodeWarnings (b : Body) : List String :=
  match b with
  | .didDoc d => if d.wellFormed then [] else ["invalid message contents"]
  | _ => ["invalid message contents", "invalid message contents"]

/-- The identifier a `new_did` body yields for the publish attempt. -/
def publishedIdOf (b : Body) : Option String :=
  match b with
  | .didDoc d => fromDocument d
  | _ => none

/-! ## Concrete fixtures used by witnesses and counterexamples -/

/-- A declared public key whose signature check accepts every envelope
(a well-behaved signer for concrete scenarios). -/
def acceptKey : PubKey := ⟨fun _ _ => true⟩

/-- A concrete linked-data signature envelope naming the `master` key. -/
def sampleSig : SignatureLD :=
  { creator := "did:bryk:alice#master", created := "2020-05-04T19:08:59Z"
    domain := "did.bryk.io", nonce := "n1", signatureValue := "sv1" }

/-- A concrete resolved identity with one declared key. -/
def aliceId : Identifier :=
  { did := "did:bryk:alice", keys := [("did:bryk:alice#master", acceptKey)] }

/-- Field values of a location record with a negative Unix timestamp. -/
def c1base : LocationRecord :=
  { did := "did:bryk:alice", lat := mkRat 1 1, lng := mkRat 1 1, alt := mkRat 0 1
    timestamp := -1, hash := "", proof := some sampleSig }

/-- The record of `c1base` carrying its own content hash. -/
def c1rec : LocationRecord := { c1base with hash := c1base.GenerateHash }

/-- A record whose latitude is 10⁻⁷ (below the `%f` output resolution). -/
def c7a : LocationRecord :=
  { did := "did:bryk:alice", lat := mkRat 1 10000000, lng := mkRat 1 1, alt := mkRat 0 1
    timestamp := 50, hash := "", proof := none }

/-- `c7a` with the latitude changed to 2·10⁻⁷. -/
def c7b : LocationRecord := { c7a with lat := mkRat 1 5000000 }

/-- `c7a` with a different DID. -/
def c7c : LocationRecord := { c7a with did := "did:bryk:bob" }

/-- `c7a` with a different timestamp. -/
def c7d : LocationRecord := { c7a with timestamp := 51 }

/-- A server configuration whose hash key is the root secret `keyA`. -/
def srvA : ServerCfg := { name := "ct19", hk := "keyA", resolver := [], pubOk := true }

/-- A server configuration with a different root secret. -/
def srvB : ServerCfg := { name := "ct19", hk := "rotated-key", resolver := [], pubOk := true }

/-- A concrete well-formed bearer token for a `user` credential. -/
def tok0 : Token := { did := "did:bryk:alice", role := "user", str := "header.payload.sig" }

/-- A store holding one `user` activation code for alice. -/
def st3 : StoreState := ⟨[⟨"user_codes", "did:bryk:alice", "code-1", 10⟩]⟩

/-- The credentials request presenting that activation code. -/
def req3 : CredentialsRequest :=
  { did := "did:bryk:alice", role := "user", activationCode := "code-1", proof := some sampleSig }

/-- A minimal location record used to build an oversized batch. -/
def rec4 : LocationRecord :=
  { did := "did:bryk:alice", lat := mkRat 1 1, lng := mkRat 1 1, alt := mkRat 0 1
    timestamp := 50, hash := "h", proof := none }

/-- A batch of 101 identical records (one over the hard cap). -/
def req101 : RecordRequest := ⟨List.replicate 101 rec4⟩

/-- An activation-code request for the `admin` role. -/
def acReq5 : ActivationCodeRequest := { did := "did:bryk:alice", role := "admin" }

/-- A credentials request for the `admin` role. -/
def crReq5 : CredentialsRequest :=
  { did := "did:bryk:alice", role := "admin", activationCode := "code-1", proof := some sampleSig }

/-- The empty activation-code store. -/
def stEmptyStore : StoreState := ⟨[]⟩

/-- The initial (empty) observable worker state. -/
def stEmptyW : WorkerState := { stored := [], acked := [], logs := [], published := [] }

/-- A worker environment that resolves alice, at time 100, with a healthy
persistence collaborator. -/
def env6 : WorkerEnv := { resolver := [("did:bryk:alice", aliceId)], now := 100, storeOk := true }

/-- `env6` with a failing persistence collaborator. -/
def env8 : WorkerEnv := { resolver := [("did:bryk:alice", aliceId)], now := 100, storeOk := false }

/-- Field values of a valid record at time 50. -/
def rec6base : LocationRecord :=
  { did := "did:bryk:alice", lat := mkRat 385 10, lng := mkRat (-770) 10, alt := mkRat 0 1
    timestamp := 50, hash := "", proof := some sampleSig }

/-- A record that passes every `validateRecord` check at time 100. -/
def rec6ok : LocationRecord := { rec6base with hash := rec6base.GenerateHash }

/-- Field values of a record with a future timestamp (now + 3600). -/
def rec6badBase : LocationRecord := { rec6base with timestamp := 3700 }

/-- An otherwise-valid record whose timestamp lies in the future. -/
def rec6bad : LocationRecord := { rec6badBase with hash := rec6badBase.GenerateHash }

/-- A three-record batch: valid, future-dated, valid. -/
def req6 : RecordRequest := ⟨[rec6ok, rec6bad, rec6ok]⟩

/-- The `location_record` task message carrying that batch for alice. -/
def msg6 : Delivery :=
  { type := "ct19.location_record", msgId := "m6", headersDid := some "did:bryk:alice"
    body := .record req6 }

/-- The same batch as a message with id `m8` (used against `env8`). -/
def msg8 : Delivery := { msg6 with msgId := "m8" }

/-- A task message of an unknown kind. -/
def msgBogus : Delivery :=
  { type := "ct19.unknown", msgId := "m9", headersDid := none, body := .malformed }

/-- A `new_did` task message whose body fails to decode as a DID document. -/
def msg10 : Delivery :=
  { type := "ct19.new_did", msgId := "m10", headersDid := none, body := .malformed }

/-! ## Helper lemmas: decimal rendering -/

theorem ofDigitsRev_natDigitsRev : ∀ fuel n, n ≤ fuel → ofDigitsRev (natDigitsRev fuel n) = n := by
  intro fuel
  induction fuel with
  | zero =>
    intro n hn
    have : n = 0 := Nat.le_zero.mp hn
    subst this; rfl
  | succ f ih =>
    intro n hn
    by_cases h0 : n = 0
    · subst h0; simp [natDigitsRev, ofDigitsRev]
    · have hdiv : n / 10 ≤ f := by
        have : n / 10 < n := Nat.div_lt_self (Nat.pos_of_ne_zero h0) (by norm_num)
        omega
      simp [natDigitsRev, h0, ofDigitsRev, ih _ hdiv, Nat.mod_add_div]

theorem natDigitsRev_lt10 : ∀ fuel n, ∀ d ∈ natDigitsRev fuel n, d < 10 := by
  intro fuel
  induction fuel with
  | zero => intro n d hd; simp [natDigitsRev] at hd
  | succ f ih =>
    intro n d hd
    by_cases h0 : n = 0
    · simp [natDigitsRev, h0] at hd
    · simp only [natDigitsRev, h0, if_false, List.mem_cons] at hd
      rcases hd with h | h
      · subst h; exact Nat.mod_lt _ (by norm_num)
      · exact ih _ _ h

theorem digitChar_inj10 : ∀ d₁ < 10, ∀ d₂ < 10,
    Nat.digitChar d₁ = Nat.digitChar d₂ → d₁ = d₂ := by decide

theorem digitChar_ne_dash : ∀ d < 10, Nat.digitChar d ≠ '-' := by decide

theorem map_digitChar_inj : ∀ l₁ l₂ : List ℕ, (∀ d ∈ l₁, d < 10) → (∀ d ∈ l₂, d < 10) →
    l₁.map Nat.digitChar = l₂.map Nat.digitChar → l₁ = l₂ := by
  intro l₁
  induction l₁ with
  | nil =>
    intro l₂ _ _ h
    cases l₂ with
    | nil => rfl
    | cons b bs => simp at h
  | cons a as ih =>
    intro l₂ h₁ h₂ h
    cases l₂ with
    | nil => simp at h
    | cons b bs =>
      simp only [List.map_cons, List.cons.injEq] at h
      have hab : a = b := digitChar_inj10 _ (h₁ a (by simp)) _ (h₂ b (by simp)) h.1
      have htl : as = bs := ih bs (fun d hd => h₁ d (by simp [hd])) (fun d hd => h₂ d (by simp [hd])) h.2
      simp [hab, htl]

theorem natRepr_inj : ∀ {m m' : ℕ}, natRepr m = natRepr m' → m = m' := by
  have key : ∀ m : ℕ, m ≠ 0 →
      ((natDigitsRev m m).map Nat.digitChar).reverse = ['0'] → False := by
    intro m h0 hrev
    have hmap : (natDigitsRev m m).map Nat.digitChar = ['0'] := by
      have := congrArg List.reverse hrev
      simpa using this
    rcases hl : natDigitsRev m m with _ | ⟨d, ds⟩
    · simp [hl] at hmap
    · rw [hl] at hmap
      simp only [List.map_cons, List.cons.injEq] at hmap
      have hds : ds = [] := List.map_eq_nil_iff.mp hmap.2
      have hd10 : d < 10 := natDigitsRev_lt10 m m d (by simp [hl])
      have hd0 : d = 0 := digitChar_inj10 d hd10 0 (by norm_num) (by simpa using hmap.1)
      have := ofDigitsRev_natDigitsRev m m le_rfl
      rw [hl, hd0, hds] at this
      simp [ofDigitsRev] at this
      exact h0 this.symm
  intro m m' h
  unfold natRepr at h
  by_cases h0 : m = 0 <;> by_cases h0' : m' = 0
  · omega
  · exfalso
    rw [if_pos h0, if_neg h0'] at h
    exact key m' h0' (congrArg String.data h).symm
  · exfalso
    rw [if_neg h0, if_pos h0'] at h
    exact key m h0 (congrArg String.data h)
  · rw [if_neg h0, if_neg h0'] at h
    have hdata := congrArg String.data h
    have hmap : (natDigitsRev m m).map Nat.digitChar = (natDigitsRev m' m').map Nat.digitChar :=
      List.reverse_injective hdata
    have hdigits := map_digitChar_inj _ _ (natDigitsRev_lt10 m m) (natDigitsRev_lt10 m' m') hmap
    have h1 := ofDigitsRev_natDigitsRev m m le_rfl
    have h2 := ofDigitsRev_natDigitsRev m' m' le_rfl
    rw [hdigits, h2] at h1
    exact h1.symm

theorem natRepr_mem_ne_dash : ∀ (m : ℕ), ∀ c ∈ (natRepr m).data, c ≠ '-' := by
  intro m c hc
  unfold natRepr at hc
  by_cases h0 : m = 0
  · rw [if_pos h0] at hc
    simp only [String.data] at hc
    intro hdash
    rw [hdash] at hc
    simp at hc
  · rw [if_neg h0] at hc
    simp only [List.mem_reverse, List.mem_map] at hc
    obtain ⟨d, hd, hdc⟩ := hc
    rw [← hdc]
    exact digitChar_ne_dash d (natDigitsRev_lt10 m m d hd)

theorem natRepr_data_ne_nil (m : ℕ) : (natRepr m).data ≠ [] := by
  unfold natRepr
  by_cases h0 : m = 0
  · rw [if_pos h0]; simp
  · rw [if_neg h0]
    cases m with
    | zero => exact absurd rfl h0
    | succ k =>
      simp only [natDigitsRev, Nat.succ_ne_zero, if_false]
      simp

theorem fmtD_inj : ∀ {t t' : ℤ}, fmtD t = fmtD t' → t = t' := by
  have mixed : ∀ (a b : ℕ), "-" ++ natRepr a = natRepr b → False := by
    intro a b h
    have hdata := congrArg String.data h
    simp only [String.data_append] at hdata
    have hdash : '-' ∈ (natRepr b).data := by
      rw [← hdata]
      simp [String.data]
    exact natRepr_mem_ne_dash b '-' hdash rfl
  intro t t' h
  unfold fmtD at h
  by_cases hn : t < 0 <;> by_cases hn' : t' < 0
  · rw [if_pos hn, if_pos hn'] at h
    have hdata := congrArg String.data h
    simp only [String.data_append] at hdata
    have : (natRepr t.natAbs).data = (natRepr t'.natAbs).data := by
      simpa [String.data] using hdata
    have := natRepr_inj (String.ext this)
    omega
  · rw [if_pos hn, if_neg hn'] at h
    exact absurd (mixed _ _ h) not_false
  · rw [if_neg hn, if_pos hn'] at h
    exact absurd (mixed _ _ h.symm) not_false
  · rw [if_neg hn, if_neg hn'] at h
    have := natRepr_inj h
    omega

/-! ## Helper lemmas: the digest input string -/

theorem hashInput_eq (r : LocationRecord) :
    r.hashInput =
      r.did ++ "|" ++ fmt6 r.lat ++ "|" ++ fmt6 r.lng ++ "|" ++ fmt6 r.alt ++ "|" ++
        fmtD r.timestamp := rfl

theorem hashInput_data (r : LocationRecord) :
    r.hashInput.data =
      r.did.data ++ '|' :: ((fmt6 r.lat).data ++ '|' :: ((fmt6 r.lng).data ++ '|' ::
        ((fmt6 r.alt).data ++ '|' :: (fmtD r.timestamp).data))) := by
  rw [hashInput_eq]
  simp [String.data_append, List.append_assoc]

theorem list_seg_step {p x y : List Char} (h : p ++ '|' :: x = p ++ '|' :: y) : x = y := by
  have h1 := List.append_cancel_left h
  simpa using h1

theorem list_seg_cancel {p s x y : List Char} (h : p ++ '|' :: (x ++ s) = p ++ '|' :: (y ++ s)) :
    x = y :=
  List.append_cancel_right (list_seg_step h)

theorem isRoleValid_eq_true_iff (role : String) :
    isRoleValid role = true ↔ role ∈ supportedRoles := by
  simp [isRoleValid, List.any_eq_true]

/-! ## Claim theorems -/

/-- C1 (counterexample): the claim "`validateRecord` returns true iff …
`0 < timestamp ≤ now` …" fails on the code: a record carrying the negative
timestamp `-1`, matching DID, non-zero coordinates, correct content hash and
a verifying proof is accepted, although `0 < timestamp` does not hold.  The
source only rejects `timestamp == 0` and `timestamp > now`. -/
theorem c1_counterexample :
    validateRecord aliceId 100 c1rec = true ∧ c1rec.timestamp < 0 := by
  exact ⟨by decide, by decide⟩

/-- C1 (amended): for every resolved identity, clock value and record,
`validateRecord` returns true iff the record's DID equals the identity's DID,
both coordinates are non-zero, the timestamp is non-zero and at most `now`,
the content hash equals the deterministic hash of
(DID, lat, lng, alt, timestamp), and the signature proof verifies against the
resolved identity's declared key. -/
theorem c1_validateRecord_iff (id : Identifier) (now : ℤ) (r : LocationRecord) :
    validateRecord id now r = true ↔
      (r.did = id.did ∧ r.lat ≠ 0 ∧ r.lng ≠ 0 ∧ r.timestamp ≠ 0 ∧ r.timestamp ≤ now ∧
        r.hash = r.GenerateHash ∧ VerifySignature id r.hash r.proof = true) := by
  unfold validateRecord
  split_ifs with h1 h2 h3 h4
  · simp only [Bool.false_eq_true, false_iff]
    intro hc
    exact h1 hc.1
  · simp only [Bool.false_eq_true, false_iff]
    intro hc
    rcases h2 with h | h
    · exact hc.2.1 h
    · exact hc.2.2.1 h
  · simp only [Bool.false_eq_true, false_iff]
    intro hc
    rcases h3 with h | h
    · exact hc.2.2.2.1 h
    · exact absurd hc.2.2.2.2.1 (not_le.mpr h)
  · simp only [Bool.false_eq_true, false_iff]
    intro hc
    exact h4 hc.2.2.2.2.2.1.symm
  · push_neg at h1 h2 h3
    constructor
    · intro hs
      exact ⟨h1, h2.1, h2.2, h3.1, h3.2, (not_ne_iff.mp h4).symm, hs⟩
    · intro hc
      exact hc.2.2.2.2.2.2

/-- C2: for every server configuration, presented token and supplied refresh
code, if the supplied code differs from the refresh code recomputed from the
presented token string, `RenewToken` fails with `InvalidRequest` and issues
no credential — regardless of the token's contents (and in particular when
the code was computed under a different root secret, see the witness). -/
theorem c2_renew_wrong_code_fails (srv : ServerCfg) (token : Token) (code : String)
    (h : code ≠ Server.getRefreshCode srv token.str) :
    Server.RenewToken srv token code = .error .invalidRequest := by
  unfold Server.RenewToken
  have hne : Server.getRefreshCode srv token.str ≠ code := fun e => h e.symm
  simp [hne]

theorem c2_witness :
    Server.getRefreshCode srvB tok0.str ≠ Server.getRefreshCode srvA tok0.str ∧
    Server.RenewToken srvA tok0 (Server.getRefreshCode srvB tok0.str) =
      .error .invalidRequest :=
  ⟨by decide, c2_renew_wrong_code_fails srvA tok0 _ (by decide)⟩

/-- C3: activation-code consumption is one-shot: after a first
`VerifyActivationCode` call with (did, role, code) succeeds (deleting all
matching entries), a second call with the same (did, role, code) on the
resulting store returns false. -/
theorem c3_activation_code_one_shot (st : StoreState) (req : CredentialsRequest)
    (h : (Handler.VerifyActivationCode st req).1 = true) :
    (Handler.VerifyActivationCode (Handler.VerifyActivationCode st req).2 req).1 = false := by
  unfold Handler.VerifyActivationCode at h ⊢
  by_cases hv : st.rows.any (codeQueryMatches (req.role ++ "_codes") req.did req.activationCode)
  · simp only [hv, if_true]
    have hfalse : (st.rows.filter fun row =>
        !(codeQueryMatches (req.role ++ "_codes") req.did req.activationCode row)).any
          (codeQueryMatches (req.role ++ "_codes") req.did req.activationCode) = false := by
      rw [List.any_eq_false]
      intro x hx
      have hmem := (List.mem_filter.mp hx).2
      simp only [Bool.not_eq_true'] at hmem
      simp [hmem]
    simp [hfalse]
  · simp [hv] at h

theorem c3_witness :
    (Handler.VerifyActivationCode st3 req3).1 = true ∧
    (Handler.VerifyActivationCode (Handler.VerifyActivationCode st3 req3).2 req3).1 = false :=
  ⟨by decide, c3_activation_code_one_shot st3 req3 (by decide)⟩

/-- C4: a record batch of more than 100 records is rejected with
`InvalidRequest` before anything is published: the task queue is returned
unchanged. -/
theorem c4_oversized_batch_rejected (srv : ServerCfg) (uuid : String) (token : Token)
    (req : RecordRequest) (q : List Delivery) (h : req.records.length > 100) :
    Server.LocationRecord srv uuid token req q = (.error .invalidRequest, q) := by
  unfold Server.LocationRecord
  simp [h]

theorem c4_witness :
    req101.records.length > 100 ∧
    Server.LocationRecord srvA "m4" tok0 req101 [] = (.error .invalidRequest, []) :=
  ⟨by decide, c4_oversized_batch_rejected srvA "m4" tok0 req101 [] (by decide)⟩

/-- C5: the public `ActivationCode` and `Credentials` operations reject the
`admin` role — and any role outside {user, agent, admin} — with
`InvalidRequest` before any business logic runs: no credential is issued and
the activation-code store is unchanged, for every DID, proof and context. -/
theorem c5_admin_role_rejected (srv : ServerCfg) (ctx : Option Token) (uuid : String)
    (now : ℤ) (st : StoreState) (acReq : ActivationCodeRequest) (crReq : CredentialsRequest)
    (hac : acReq.role = "admin" ∨ acReq.role ∉ supportedRoles)
    (hcr : crReq.role = "admin" ∨ crReq.role ∉ supportedRoles) :
    remoteActivationCode srv ctx uuid now acReq st = (.error .invalidRequest, st) ∧
    remoteCredentials srv crReq st = (.error .invalidRequest, st) := by
  have key : ∀ role : String, role = "admin" ∨ role ∉ supportedRoles →
      ((!isRoleValid role) = true ∨ role = "admin") := by
    intro role h
    rcases h with h | h
    · right; exact h
    · left
      simp only [Bool.not_eq_true']
      rw [← Bool.not_eq_true]
      intro hv
      exact h ((isRoleValid_eq_true_iff role).mp hv)
  constructor
  · unfold remoteActivationCode
    rw [if_pos (key _ hac)]
  · unfold remoteCredentials
    rw [if_pos (key _ hcr)]

theorem c5_witness :
    remoteActivationCode srvA none "uuid-1" 0 acReq5 stEmptyStore =
      (.error .invalidRequest, stEmptyStore) ∧
    remoteCredentials srvA crReq5 stEmptyStore = (.error .invalidRequest, stEmptyStore) :=
  c5_admin_role_rejected srvA none "uuid-1" 0 stEmptyStore acReq5 crReq5
    (Or.inl rfl) (Or.inl rfl)

/-- C6: a `location_record` task message whose submitter DID (taken from the
message headers) resolves, processed against a healthy store, persists
exactly the sub-list of batch records accepted by `validateRecord`, in batch
order, in the single bulk insert; records failing any check are excluded
while the remaining valid records of the same batch are still persisted. -/
theorem c6_worker_persists_valid_subset (env : WorkerEnv) (msg : Delivery) (st : WorkerState)
    (d : String) (req : RecordRequest) (id : Identifier)
    (htype : msg.type = "ct19.location_record")
    (hdid : msg.headersDid = some d)
    (hbody : msg.body = .record req)
    (hres : env.resolver.lookup d = some id)
    (hstore : env.storeOk = true) :
    (Worker.handleTask env msg st).stored =
      st.stored ++ req.records.filter (validateRecord id env.now) := by
  unfold Worker.handleTask
  rw [if_pos htype]
  unfold Worker.locationRecord
  rw [hdid, hbody]
  simp only [hres]
  unfold Handler.LocationRecords
  rw [hstore]
  by_cases he : (req.records.filter (validateRecord id env.now)).isEmpty
  · rw [List.isEmpty_iff] at he
    simp [he, withAck, wlog]
  · simp only [Bool.not_true, Bool.false_eq_true, if_false, he, withAck, wlog]

theorem c6_witness :
    (Worker.handleTask env6 msg6 stEmptyW).stored = [rec6ok, rec6ok] := by
  have h := c6_worker_persists_valid_subset env6 msg6 stEmptyW "did:bryk:alice" req6 aliceId
    rfl rfl rfl rfl rfl
  rw [h]
  decide

/-- C7 (counterexample): the claim "changing any one of the five fields
changes the digest" fails on the code: two records that differ only in the
latitude (10⁻⁷ versus 2·10⁻⁷, both below the 6-decimal `%f` output
resolution) produce the identical digest, because the hash input renders
coordinates with `fmt.Sprintf("%f", ·)`. -/
theorem c7_counterexample :
    c7a.did = c7b.did ∧ c7a.lng = c7b.lng ∧ c7a.alt = c7b.alt ∧
    c7a.timestamp = c7b.timestamp ∧ c7a.lat ≠ c7b.lat ∧
    c7a.GenerateHash = c7b.GenerateHash :=
  ⟨rfl, rfl, rfl, rfl, by decide, by decide⟩

/-- C7 (amended): the record hash is deterministic — identical
(did, lat, lng, alt, timestamp) always yields the identical digest — and
field-sensitive only up to the rendering of each field: with the other
segments unchanged, changing the DID changes the digest, changing the
timestamp changes the digest, and changing a coordinate changes the digest
exactly when its six-decimal `%f` rendering changes (sub-resolution
coordinate changes leave the digest unchanged). -/
theorem c7_hash_deterministic_rendering_sensitive :
    (∀ r r' : LocationRecord, r.did = r'.did → r.lat = r'.lat → r.lng = r'.lng →
      r.alt = r'.alt → r.timestamp = r'.timestamp → r.GenerateHash = r'.GenerateHash) ∧
    (∀ r r' : LocationRecord, fmt6 r.lat = fmt6 r'.lat → fmt6 r.lng = fmt6 r'.lng →
      fmt6 r.alt = fmt6 r'.alt → r.timestamp = r'.timestamp → r.did ≠ r'.did →
      r.GenerateHash ≠ r'.GenerateHash) ∧
    (∀ r r' : LocationRecord, r.did = r'.did → fmt6 r.lng = fmt6 r'.lng →
      fmt6 r.alt = fmt6 r'.alt → r.timestamp = r'.timestamp → fmt6 r.lat ≠ fmt6 r'.lat →
      r.GenerateHash ≠ r'.GenerateHash) ∧
    (∀ r r' : LocationRecord, r.did = r'.did → fmt6 r.lat = fmt6 r'.lat →
      fmt6 r.alt = fmt6 r'.alt → r.timestamp = r'.timestamp → fmt6 r.lng ≠ fmt6 r'.lng →
      r.GenerateHash ≠ r'.GenerateHash) ∧
    (∀ r r' : LocationRecord, r.did = r'.did → fmt6 r.lat = fmt6 r'.lat →
      fmt6 r.lng = fmt6 r'.lng → r.timestamp = r'.timestamp → fmt6 r.alt ≠ fmt6 r'.alt →
      r.GenerateHash ≠ r'.GenerateHash) ∧
    (∀ r r' : LocationRecord, r.did = r'.did → fmt6 r.lat = fmt6 r'.lat →
      fmt6 r.lng = fmt6 r'.lng → fmt6 r.alt = fmt6 r'.alt → r.timestamp ≠ r'.timestamp →
      r.GenerateHash ≠ r'.GenerateHash) := by
  refine ⟨?_, ?_, ?_, ?_, ?_, ?_⟩
  · intro r r' h1 h2 h3 h4 h5
    simp only [LocationRecord.GenerateHash, LocationRecord.hashInput, h1, h2, h3, h4, h5]
  · intro r r' hlat hlng halt hts hne heq
    have hdata : r.hashInput.data = r'.hashInput.data := congrArg String.data heq
    rw [hashInput_data r, hashInput_data r', hlat, hlng, halt, hts] at hdata
    exact hne (String.ext (List.append_cancel_right hdata))
  · intro r r' hd hlng halt hts hne heq
    have hdata : r.hashInput.data = r'.hashInput.data := congrArg String.data heq
    rw [hashInput_data r, hashInput_data r', hd, hlng, halt, hts] at hdata
    exact hne (String.ext (list_seg_cancel hdata))
  · intro r r' hd hlat halt hts hne heq
    have hdata : r.hashInput.data = r'.hashInput.data := congrArg String.data heq
    rw [hashInput_data r, hashInput_data r', hd, hlat, halt, hts] at hdata
    exact hne (String.ext (list_seg_cancel (list_seg_step hdata)))
  · intro r r' hd hlat hlng hts hne heq
    have hdata : r.hashInput.data = r'.hashInput.data := congrArg String.data heq
    rw [hashInput_data r, hashInput_data r', hd, hlat, hlng, hts] at hdata
    exact hne (String.ext (list_seg_cancel (list_seg_step (list_seg_step hdata))))
  · intro r r' hd hlat hlng halt hts heq
    have hdata : r.hashInput.data = r'.hashInput.data := congrArg String.data heq
    rw [hashInput_data r, hashInput_data r', hd, hlat, hlng, halt] at hdata
    have hfinal := list_seg_step (list_seg_step (list_seg_step (list_seg_step hdata)))
    exact hts (fmtD_inj (String.ext hfinal))

theorem c7_witness :
    c7a.GenerateHash ≠ c7c.GenerateHash ∧ c7a.GenerateHash ≠ c7d.GenerateHash :=
  ⟨c7_hash_deterministic_rendering_sensitive.2.1 c7a c7c rfl rfl rfl rfl (by decide),
   c7_hash_deterministic_rendering_sensitive.2.2.2.2.2 c7a c7d rfl rfl rfl rfl (by decide)⟩

theorem locationRecord_acked (env : WorkerEnv) (msg : Delivery) (st : WorkerState) :
    (Worker.locationRecord env msg st).acked = st.acked ++ [msg.msgId] := by
  unfold Worker.locationRecord
  rcases hd : msg.headersDid with _ | d <;> simp only [hd, withAck, wlog]
  rcases hb : msg.body with req | doc | _ <;> simp only [withAck, wlog]
  rcases hr : List.lookup d env.resolver with _ | id <;> simp only [hr, withAck, wlog]
  rcases hs : Handler.LocationRecords env.storeOk st.stored
      (req.records.filter (validateRecord id env.now)) with e | s <;>
    simp only [hs, withAck, wlog]

theorem locationRecord_stored_of_store_down (env : WorkerEnv) (msg : Delivery)
    (st : WorkerState) (hstore : env.storeOk = false) :
    (Worker.locationRecord env msg st).stored = st.stored := by
  unfold Worker.locationRecord
  rcases hd : msg.headersDid with _ | d <;> simp only [hd, withAck, wlog]
  rcases hb : msg.body with req | doc | _ <;> simp only [withAck, wlog]
  rcases hr : List.lookup d env.resolver with _ | id <;> simp only [hr, withAck, wlog]
  unfold Handler.LocationRecords
  rw [hstore]
  rfl

/-- C8: a `location_record` task message is acknowledged regardless of the
outcome — on every path, including decode, resolution and persistence
failures; when the store is down the worker persists nothing and logs the
persistence error (for any message that reaches the bulk insert), but the
message is still acknowledged and no error is returned to anyone. -/
theorem c8_location_record_always_acked (env : WorkerEnv) (msg : Delivery) (st : WorkerState)
    (htype : msg.type = "ct19.location_record") :
    (Worker.handleTask env msg st).acked = st.acked ++ [msg.msgId] ∧
    (env.storeOk = false →
      (Worker.handleTask env msg st).stored = st.stored ∧
      ∀ d req, msg.headersDid = some d → msg.body = .record req →
        (env.resolver.lookup d).isSome = true →
        "failed to save record" ∈ (Worker.handleTask env msg st).logs) := by
  unfold Worker.handleTask
  rw [if_pos htype]
  refine ⟨locationRecord_acked env msg st, fun hstore => ⟨?_, ?_⟩⟩
  · exact locationRecord_stored_of_store_down env msg st hstore
  · intro d req hd hb hr
    rcases hid : env.resolver.lookup d with _ | id
    · rw [hid] at hr; simp at hr
    · unfold Worker.locationRecord withAck wlog
      rw [hd, hb]
      simp only [hid]
      unfold Handler.LocationRecords
      rw [hstore]
      simp

theorem c8_witness :
    (Worker.handleTask env8 msg8 stEmptyW).acked = ["m8"] ∧
    (Worker.handleTask env8 msg8 stEmptyW).stored = [] ∧
    "failed to save record" ∈ (Worker.handleTask env8 msg8 stEmptyW).logs := by
  have h := c8_location_record_always_acked env8 msg8 stEmptyW rfl
  exact ⟨h.1, (h.2 rfl).1, (h.2 rfl).2 "did:bryk:alice" req6 rfl rfl rfl⟩

/-- C9 (counterexample): the claim "for every message of any other type, the
worker logs a warning and acknowledges the message" fails on the code: a
message of type `ct19.unknown` is only logged — the acknowledgement list is
unchanged (the default branch of `handleTasks` never calls `msg.Ack`). -/
theorem c9_counterexample :
    (Worker.handleTask env6 msgBogus stEmptyW).logs = ["invalid message type"] ∧
    (Worker.handleTask env6 msgBogus stEmptyW).acked = [] ∧
    [] ≠ [msgBogus.msgId] := by
  refine ⟨by decide, by decide, by decide⟩

/-- C9 (amended): for every task message whose type is neither
`location_record` nor `new_did`, the worker logs a warning and takes no
further action — no validation, no persistence, no publish, and (unlike the
two known kinds) no acknowledgement: the state changes only by the warning
log line. -/
theorem c9_unknown_kind_only_logged (env : WorkerEnv) (msg : Delivery) (st : WorkerState)
    (h1 : msg.type ≠ "ct19.location_record") (h2 : msg.type ≠ "ct19.new_did") :
    Worker.handleTask env msg st = { st with logs := st.logs ++ ["invalid message type"] } := by
  unfold Worker.handleTask
  rw [if_neg h1, if_neg h2]
  rfl

theorem c9_witness :
    Worker.handleTask env6 msgBogus stEmptyW =
      { stEmptyW with logs := ["invalid message type"] } := by
  rw [c9_unknown_kind_only_logged env6 msgBogus stEmptyW (by decide) (by decide)]
  rfl

/-- C10: every `new_did` task message is acknowledged and always reaches the
directory-publish step: decode and conversion failures are logged as warnings
but do not stop the publish attempt, which is initiated (difficulty 18) with
the possibly-absent identifier produced by the failed decode/conversion. -/
theorem c10_new_did_always_published (env : WorkerEnv) (msg : Delivery) (st : WorkerState)
    (htype : msg.type = "ct19.new_did") :
    Worker.handleTask env msg st =
      { st with
        acked := st.acked ++ [msg.msgId],
        logs := st.logs ++ decodeWarnings msg.body,
        published := st.published ++ [(publishedIdOf msg.body, 18)] } := by
  unfold Worker.handleTask
  rw [htype]
  simp only [String.reduceEq, reduceIte]
  unfold Worker.publishDID
  rcases hb : msg.body with req | doc | _
  · simp [withAck, wlog, decodeWarnings, publishedIdOf, fromDocument, emptyDocument]
  · by_cases hw : doc.wellFormed = true <;>
      simp [hw, withAck, wlog, decodeWarnings, publishedIdOf, fromDocument, emptyDocument]
  · simp [withAck, wlog, decodeWarnings, publishedIdOf, fromDocument, emptyDocument]

theorem c10_witness :
    Worker.handleTask env6 msg10 stEmptyW =
      { stEmptyW with
        acked := ["m10"],
        logs := ["invalid message contents", "invalid message contents"],
        published := [(none, 18)] } := by
  rw [c10_new_did_always_published env6 msg10 stEmptyW rfl]
  rfl

end CT19
